import Mathlib

/-!
Verification of the Zutax / FIRS e-invoice SDK core against its
natural-language specification.

The Python sources are shallowly embedded:
- Python `str` is modelled as `List Char` (`PyStr`);
- Python `decimal.Decimal` values (amounts, rates) are modelled as `ℚ`,
  with `Decimal.quantize(Decimal('0.01'), rounding=ROUND_HALF_UP)`
  modelled by `roundHalfUp2`;
- Python `None` / optional arguments are modelled as `Option`;
- functions that `raise` are modelled as `Except String`.
-/

namespace Zutax

/-- Python strings are modelled as lists of characters. -/
abbrev PyStr := List Char

/-- Helper turning a Lean string literal into the `PyStr` model. -/
def pystr (s : String) : PyStr := s.data

/-- Python truthiness of an optional numeric value: `None` and `0` are falsy. -/
def truthyQ : Option ℚ → Bool
  | none => false
  | some q => q != 0

/-- Python truthiness of an optional string: `None` and `""` are falsy. -/
def truthyStr : Option PyStr → Bool
  | none => false
  | some s => !s.isEmpty

/-- Model of `Decimal.quantize(Decimal('0.01'), rounding=ROUND_HALF_UP)`:
round to 2 decimal places, ties away from zero. -/
def roundHalfUp2 (q : ℚ) : ℚ :=
  if 0 ≤ q then (⌊q * 100 + 1/2⌋ : ℚ) / 100
  else -((⌊-q * 100 + 1/2⌋ : ℚ) / 100)

/-! ### HSN registry (src/zutax/managers/hsn_manager.py)

`HSNManager` holds a class-level database initialised once with the
fixed set of codes below (`HSNManager.initialize`).  The firs_einvoice
package's own `hsn_manager.py` is not present under `src/`; the Zutax
native copy embedded here is the one the claims cite. -/

/-- Model of the `HSNCode` pydantic model. -/
structure HSNCode where
  code : PyStr
  description : PyStr
  category : PyStr
  tax_rate : ℚ
  is_exempt : Bool
  exemption_reason : Option PyStr
  deriving Repr, DecidableEq

/-- Exemption reason constants (src/zutax/config/constants.py,
`VAT_EXEMPTION_REASONS`). -/
def reasonMEDICAL : PyStr :=
  pystr "Medical equipment and pharmaceuticals - VAT exempt under Nigerian law"

def reasonFOOD : PyStr :=
  pystr "Basic food items - VAT exempt under Nigerian law"

def reasonINFANT : PyStr :=
  pystr "Infant and baby products - VAT exempt under Nigerian law"

def reasonEDUCATION : PyStr :=
  pystr "Educational materials and books - VAT exempt under Nigerian law"

/-- The HSN database as populated by `HSNManager.initialize` (insertion
order preserved; keys are pairwise distinct so association-list lookup
models the Python dict). -/
def hsnDatabase : List (PyStr × HSNCode) :=
  [ (pystr "3004", ⟨pystr "3004", pystr "Medicaments", pystr "MEDICAL", 0, true, some reasonMEDICAL⟩)
  , (pystr "3005", ⟨pystr "3005", pystr "Wadding, gauze, bandages", pystr "MEDICAL", 0, true, some reasonMEDICAL⟩)
  , (pystr "3006", ⟨pystr "3006", pystr "Pharmaceutical preparations", pystr "MEDICAL", 0, true, some reasonMEDICAL⟩)
  , (pystr "1001", ⟨pystr "1001", pystr "Wheat and meslin", pystr "FOOD_BASIC", 0, true, some reasonFOOD⟩)
  , (pystr "1006", ⟨pystr "1006", pystr "Rice", pystr "FOOD_BASIC", 0, true, some reasonFOOD⟩)
  , (pystr "0401", ⟨pystr "0401", pystr "Milk and cream", pystr "FOOD_BASIC", 0, true, some reasonFOOD⟩)
  , (pystr "1901", ⟨pystr "1901", pystr "Infant food preparations", pystr "INFANT", 0, true, some reasonINFANT⟩)
  , (pystr "3401", ⟨pystr "3401", pystr "Baby soap and cleansing preparations", pystr "INFANT", 0, true, some reasonINFANT⟩)
  , (pystr "4901", ⟨pystr "4901", pystr "Books, brochures, leaflets", pystr "EDUCATION", 0, true, some reasonEDUCATION⟩)
  , (pystr "4902", ⟨pystr "4902", pystr "Newspapers, journals", pystr "EDUCATION", 0, true, some reasonEDUCATION⟩)
  , (pystr "8471", ⟨pystr "8471", pystr "Computers and computer peripherals", pystr "ELECTRONICS", 75/10, false, none⟩)
  , (pystr "8517", ⟨pystr "8517", pystr "Telephones and telecommunication equipment", pystr "ELECTRONICS", 75/10, false, none⟩)
  , (pystr "8703", ⟨pystr "8703", pystr "Motor cars and vehicles", pystr "AUTOMOTIVE", 75/10, false, none⟩)
  , (pystr "9403", ⟨pystr "9403", pystr "Furniture", pystr "FURNITURE", 75/10, false, none⟩)
  , (pystr "6109", ⟨pystr "6109", pystr "T-shirts, singlets", pystr "TEXTILES", 75/10, false, none⟩) ]

/-- Model of `HSNManager.get_hsn_code`: exact lookup, then fall back to the
first four digits (chapter level) when the code has length at least 4. -/
def get_hsn_code (code : PyStr) : Option HSNCode :=
  match hsnDatabase.lookup code with
  | some h => some h
  | none => if 4 ≤ code.length then hsnDatabase.lookup (code.take 4) else none

/-- Model of `HSNManager.is_exempt`. -/
def is_exempt (hsn_code : PyStr) : Bool :=
  match get_hsn_code hsn_code with
  | some h => h.is_exempt
  | none => false

/-- Model of `HSNManager.get_tax_rate`: the entry's rate, defaulting to the
standard VAT rate 7.5 when the code is unknown. -/
def get_tax_rate (hsn_code : PyStr) : ℚ :=
  match get_hsn_code hsn_code with
  | some h => h.tax_rate
  | none => 75/10

/-- Model of `HSNManager.get_exemption_reason`. -/
def get_exemption_reason (hsn_code : PyStr) : Option PyStr :=
  match get_hsn_code hsn_code with
  | some h => h.exemption_reason
  | none => none

/-- Model of `HSNManager.validate_hsn_code` (src/zutax/managers/hsn_manager.py):
the regex `^\d{4,8}$`, i.e. 4 to 8 digits with no parity requirement. -/
def hsnManagerValidateCode (code : PyStr) : Bool :=
  4 ≤ code.length && code.length ≤ 8 && code.all Char.isDigit

/-- Model of the schema-level `validate_hsn_code`
(src/zutax/schemas/validators_impl.py): the sequential check chain returning
`(ok, optional error message)`; this one also rejects odd lengths. -/
def schemaValidateHsnCode (hsn_code : PyStr) : Bool × Option PyStr :=
  if hsn_code.isEmpty then (false, some (pystr "HSN/SAC code is required"))
  else if !hsn_code.all Char.isDigit then
    (false, some (pystr "HSN/SAC code must contain only digits"))
  else if hsn_code.length < 4 then
    (false, some (pystr "HSN/SAC code must be at least 4 digits"))
  else if 8 < hsn_code.length then
    (false, some (pystr "HSN/SAC code must not exceed 8 digits"))
  else if hsn_code.length % 2 ≠ 0 then
    (false, some (pystr "HSN/SAC code must have even number of digits (4, 6, or 8)"))
  else (true, none)

/-! ### Tax engine (src/firs_einvoice/managers/tax_manager.py)

`TaxManager` works on `Decimal` amounts; `TAX_CATEGORIES` values are taken
from src/zutax/config/constants.py (the legacy constants module is not under
`src/`; the Zutax native copy maps the three VAT keys to "VAT", the three
excise keys to "EXCISE" and the two duty keys to "CUSTOMS"). -/

/-- Model of the `TaxCalculation` pydantic model. -/
structure TaxCalculation where
  category : PyStr
  rate : ℚ
  base_amount : ℚ
  tax_amount : ℚ
  exemption_reason : Option PyStr
  deriving Repr, DecidableEq

/-- Model of the `TaxBreakdown` pydantic model. -/
structure TaxBreakdown where
  vat : ℚ
  excise : ℚ
  customs : ℚ
  other : ℚ
  total : ℚ
  details : List TaxCalculation
  deriving Repr, DecidableEq

/-- Input element of `calculate_multiple_taxes` / `calculate_cascading_tax`:
a dict with a `category` and a `rate`. -/
structure TaxIn where
  category : PyStr
  rate : ℚ
  deriving Repr, DecidableEq

/-- `DEFAULT_CONFIG['DEFAULT_TAX_RATE']`, the standard VAT rate. -/
def VAT_RATE : ℚ := 75/10

/-- Model of `TaxManager.calculate_line_tax`. -/
def calculate_line_tax (amount : ℚ) (hsn_code : Option PyStr)
    (custom_rate : Option ℚ) : TaxCalculation :=
  if truthyStr hsn_code && is_exempt (hsn_code.getD []) then
    let reason := get_exemption_reason (hsn_code.getD [])
    { category := pystr "VAT", rate := 0, base_amount := amount, tax_amount := 0,
      exemption_reason := if truthyStr reason then reason else none }
  else
    let rate := match custom_rate with
      | some r => r
      | none => if truthyStr hsn_code then get_tax_rate (hsn_code.getD []) else VAT_RATE
    { category := pystr "VAT", rate := rate, base_amount := amount,
      tax_amount := roundHalfUp2 (amount * rate / 100), exemption_reason := none }

/-- The empty `TaxBreakdown` both aggregation functions start from. -/
def emptyBreakdown : TaxBreakdown :=
  { vat := 0, excise := 0, customs := 0, other := 0, total := 0, details := [] }

/-- Shared bucketing tail of both aggregation loops: add a computed tax
amount to the vat/excise/customs/other bucket selected by its category, and
to the running total. -/
def addToBuckets (b : TaxBreakdown) (category : PyStr) (tax_amount : ℚ) :
    TaxBreakdown :=
  let b1 :=
    if category = pystr "VAT" then { b with vat := b.vat + tax_amount }
    else if category = pystr "EXCISE" then { b with excise := b.excise + tax_amount }
    else if category = pystr "CUSTOMS" then { b with customs := b.customs + tax_amount }
    else { b with other := b.other + tax_amount }
  { b1 with total := b1.total + tax_amount }

/-- One iteration of the `calculate_multiple_taxes` loop: the tax is always
computed off the same original base amount. -/
def stepMultiple (base : ℚ) (b : TaxBreakdown) (t : TaxIn) : TaxBreakdown :=
  let ta := roundHalfUp2 (base * t.rate / 100)
  let b2 := { b with details := b.details ++ [⟨t.category, t.rate, base, ta, none⟩] }
  addToBuckets b2 t.category ta

/-- Model of `TaxManager.calculate_multiple_taxes`. -/
def calculate_multiple_taxes (amount : ℚ) (taxes : List TaxIn) : TaxBreakdown :=
  taxes.foldl (stepMultiple amount) emptyBreakdown

/-- One iteration of the `calculate_cascading_tax` loop: the state carries
`current_amount`, and the freshly computed tax is added to it for the next
iteration. -/
def stepCascade (st : ℚ × TaxBreakdown) (t : TaxIn) : ℚ × TaxBreakdown :=
  let ta := roundHalfUp2 (st.1 * t.rate / 100)
  let b2 := { st.2 with details := st.2.details ++ [⟨t.category, t.rate, st.1, ta, none⟩] }
  (st.1 + ta, addToBuckets b2 t.category ta)

/-- Model of `TaxManager.calculate_cascading_tax`. -/
def calculate_cascading_tax (amount : ℚ) (taxes : List TaxIn) : TaxBreakdown :=
  (taxes.foldl stepCascade (amount, emptyBreakdown)).2

/-- Model of `TaxManager.calculate_reverse_tax`. -/
def calculate_reverse_tax (total_amount tax_rate : ℚ) : ℚ × ℚ :=
  let divisor := (100 + tax_rate) / 100
  let base_amount := roundHalfUp2 (total_amount / divisor)
  (base_amount, total_amount - base_amount)

/-- Model of `TaxManager.validate_tax_calculation`: recompute the expected
tax and accept when the difference is at most 0.01. -/
def validate_tax_calculation (base_amount tax_amount rate : ℚ) : Bool :=
  let expected := roundHalfUp2 (base_amount * rate / 100)
  decide (|tax_amount - expected| ≤ 1/100)

/-! ### Python string primitives used by the IRN codec -/

/-- Model of Python `str.split` with a one-character separator: keeps empty
segments, and the split of the empty string is `[""]`. -/
def pySplit (sep : Char) : PyStr → List PyStr
  | [] => [[]]
  | c :: cs =>
    if c = sep then [] :: pySplit sep cs
    else
      match pySplit sep cs with
      | [] => [[c]]
      | t :: ts => (c :: t) :: ts

/-- Model of Python `sep.join(parts)`. -/
def pyJoin (sep : Char) : List PyStr → PyStr
  | [] => []
  | [s] => s
  | s :: rest => s ++ sep :: pyJoin sep rest

/-- Model of Python `str.upper` on one ASCII character. -/
def pyUpperChar (c : Char) : Char :=
  if 97 ≤ c.toNat && c.toNat ≤ 122 then Char.ofNat (c.toNat - 32) else c

/-- Model of Python `str.upper` (the inputs of interest are ASCII). -/
def pyUpper (s : PyStr) : PyStr := s.map pyUpperChar

/-- ASCII alphanumeric test, the fragment of Python `str.isalnum` relevant
to IRN service ids. -/
def isAsciiAlnum (c : Char) : Bool :=
  (48 ≤ c.toNat && c.toNat ≤ 57) || (65 ≤ c.toNat && c.toNat ≤ 90) ||
    (97 ≤ c.toNat && c.toNat ≤ 122)

/-- Model of Python `str.isalnum` (nonempty and all alphanumeric). -/
def pyIsAlnum (s : PyStr) : Bool := !s.isEmpty && s.all isAsciiAlnum

/-- Model of Python `str.isdigit` (nonempty and all digits). -/
def pyIsDigit (s : PyStr) : Bool := !s.isEmpty && s.all Char.isDigit

/-- Python `x or y` on an optional string: `None` and `""` select `y`. -/
def pyOrStr (o : Option PyStr) (dflt : PyStr) : PyStr :=
  match o with
  | none => dflt
  | some s => if s.isEmpty then dflt else s

/-- Decimal digit character (`chr(48 + d)` for `d < 10`). -/
def digitChar (d : ℕ) : Char := Char.ofNat (48 + d)

/-- Decimal digits of a natural number, most significant first (empty for 0). -/
def natChars (n : ℕ) : PyStr := (Nat.digits 10 n).reverse.map digitChar

/-- Model of Python `str(n)` for a natural number. -/
def natStr (n : ℕ) : PyStr := if n = 0 then [digitChar 0] else natChars n

/-- Model of Python `str(i)` for an integer. -/
def intStr (i : ℤ) : PyStr :=
  if i < 0 then '-' :: natStr i.natAbs else natStr i.natAbs

/-- Numeric value of a decimal digit character. -/
def digitVal (c : Char) : ℕ := c.toNat - 48

/-- Numeric value of a string of decimal digit characters. -/
def digitsVal (s : PyStr) : ℕ := s.foldl (fun a c => 10 * a + digitVal c) 0

/-! ### IRN codec (src/zutax/crypto/irn.py)

`IRNGenerator` builds and parses `{InvoiceNumber}-{ServiceID}-{DateStamp}`
strings.  Dates are modelled as year/month/day triples; `strftime("%Y%m%d")`
and the `strptime` re-parse inside `validate_irn` are modelled digit by
digit. -/

/-- Model of a Python `datetime` date part. -/
structure PyDate where
  year : ℕ
  month : ℕ
  day : ℕ
  deriving Repr, DecidableEq

/-- Gregorian leap-year rule used by `datetime`. -/
def isLeapYear (y : ℕ) : Bool := (y % 4 = 0 && y % 100 ≠ 0) || y % 400 = 0

/-- Number of days of a month as `datetime` accepts them. -/
def daysInMonth (y m : ℕ) : ℕ :=
  if m = 2 then (if isLeapYear y then 29 else 28)
  else if m = 4 ∨ m = 6 ∨ m = 9 ∨ m = 11 then 30
  else 31

/-- Validity of a year/month/day triple for `datetime` (`MINYEAR = 1`). -/
def validYMD (y m d : ℕ) : Bool :=
  1 ≤ y && 1 ≤ m && m ≤ 12 && 1 ≤ d && d ≤ daysInMonth y m

/-- Two-digit zero-padded field of `strftime` (`%m`, `%d`; both are at most
31 on any reachable `datetime`, so two digits are exact). -/
def pad2 (n : ℕ) : PyStr := [digitChar (n / 10 % 10), digitChar (n % 10)]

/-- Model of `IRNGenerator._generate_date_stamp` via `strftime("%Y%m%d")`:
the year in decimal (exactly four digits for the years 1000–9999 the
eight-character IRN grammar accepts), month and day zero-padded to two. -/
def dateStamp (d : PyDate) : PyStr := natChars d.year ++ pad2 d.month ++ pad2 d.day

/-- Model of `datetime.strptime(date_stamp, "%Y%m%d")` succeeding on an
eight-character digit string: four digits of year, two of month, two of
day, forming a valid calendar date. -/
def strptimeOkYMD (s : PyStr) : Bool :=
  validYMD (digitsVal (s.take 4)) (digitsVal ((s.drop 4).take 2))
    (digitsVal (s.drop 6))

/-- Model of `IRNGenerator.validate_irn`: split on `-`, take the last two
tokens as service id and date stamp, rejoin the rest as the invoice number,
and check each component. -/
def validate_irn (irn : PyStr) : Bool :=
  if irn.isEmpty then false
  else
    let parts := pySplit '-' irn
    if parts.length < 3 then false
    else
      match parts.reverse with
      | date_stamp :: service_id :: restRev =>
        let invoice_number := pyJoin '-' restRev.reverse
        if invoice_number.isEmpty then false
        else if !(service_id.length = 8 && pyIsAlnum service_id) then false
        else if !(date_stamp.length = 8 && pyIsDigit date_stamp) then false
        else strptimeOkYMD date_stamp
      | _ => false

/-- Components returned by `IRNGenerator.extract_components`. -/
structure IRNComponents where
  invoice_number : PyStr
  service_id : PyStr
  date_stamp : PyStr
  issue_date : PyDate
  deriving Repr, DecidableEq

/-- Model of `IRNGenerator.extract_components`: validate, then split off the
last two tokens; raises `ValueError` on an invalid IRN. -/
def extract_components (irn : PyStr) : Except String IRNComponents :=
  if !validate_irn irn then .error "Invalid IRN format"
  else
    match (pySplit '-' irn).reverse with
    | date_stamp :: service_id :: restRev =>
      .ok { invoice_number := pyJoin '-' restRev.reverse
          , service_id := service_id
          , date_stamp := date_stamp
          , issue_date :=
              { year := digitsVal (date_stamp.take 4)
              , month := digitsVal ((date_stamp.drop 4).take 2)
              , day := digitsVal (date_stamp.drop 6) } }
    | _ => .error "Invalid IRN format"

/-- Model of `IRNGenerator.create_custom_irn`.  The randomly generated
service id used when none is supplied (`_generate_service_id`, UUID-based)
and the current date used when no issue date is supplied are passed in as
the explicit parameters `genSid` and `nowDate`. -/
def create_custom_irn (genSid : PyStr) (nowDate : PyDate)
    (invoice_number : PyStr) (service_id : Option PyStr)
    (issue_date : Option PyDate) : Except String PyStr :=
  let sid := pyUpper ((pyOrStr service_id genSid).take 8)
  let ds := dateStamp (issue_date.getD nowDate)
  let irn := invoice_number ++ '-' :: (sid ++ '-' :: ds)
  if !validate_irn irn then .error "Generated IRN is invalid"
  else .ok irn

/-! ### Signing pipeline (src/zutax/crypto/firs_signing.py)

`json.dumps` (default separators `', '` and `': '`, `ensure_ascii=True`),
`str.encode("utf-8")` and `base64.b64encode` are modelled byte for byte.
The RSA PKCS#1 v1.5 cipher produced by `PKCS1_v1_5.new(rsa_key)` is
randomized and external to the repository, so `cipher.encrypt` is taken as
an arbitrary byte-function parameter `pkcs1v15Encrypt`; every structural
fact below holds for all values of it. -/

/-- Lowercase hexadecimal digit character used by `json.dumps` escapes. -/
def hexDigitChar (n : ℕ) : Char := if n < 10 then digitChar n else Char.ofNat (87 + n)

/-- Four lowercase hex digits of a value below 2^16. -/
def hex4 (n : ℕ) : PyStr :=
  [hexDigitChar (n / 4096 % 16), hexDigitChar (n / 256 % 16),
   hexDigitChar (n / 16 % 16), hexDigitChar (n % 16)]

/-- Model of the per-character escaping of `json.dumps` with the default
`ensure_ascii=True`. -/
def jsonEscapeChar (c : Char) : PyStr :=
  let n := c.toNat
  if c = '"' then ['\\', '"']
  else if c = '\\' then ['\\', '\\']
  else if n < 32 then
    if n = 8 then ['\\', 'b']
    else if n = 9 then ['\\', 't']
    else if n = 10 then ['\\', 'n']
    else if n = 12 then ['\\', 'f']
    else if n = 13 then ['\\', 'r']
    else '\\' :: 'u' :: hex4 n
  else if n < 127 then [c]
  else if n < 65536 then '\\' :: 'u' :: hex4 n
  else
    let m := n - 65536
    ('\\' :: 'u' :: hex4 (55296 + m / 1024)) ++ ('\\' :: 'u' :: hex4 (56320 + m % 1024))

/-- JSON string literal of `json.dumps`. -/
def jsonStr (s : PyStr) : PyStr := '"' :: (s.map jsonEscapeChar).flatten ++ ['"']

/-- Model of `json.dumps({"irn": irn, "certificate": certificate})`: a
two-key object whose keys appear in insertion order `irn`, `certificate`,
with the default separators. -/
def jsonDumpsIrnCert (irn certificate : PyStr) : PyStr :=
  Char.ofNat 123 ::
    (jsonStr (pystr "irn") ++ ':' :: ' ' :: jsonStr irn ++ ',' :: ' ' ::
      (jsonStr (pystr "certificate") ++ ':' :: ' ' :: jsonStr certificate)) ++
    [Char.ofNat 125]

/-- UTF-8 bytes of one character. -/
def utf8Char (c : Char) : List ℕ :=
  let n := c.toNat
  if n < 128 then [n]
  else if n < 2048 then [192 + n / 64, 128 + n % 64]
  else if n < 65536 then [224 + n / 4096, 128 + n / 64 % 64, 128 + n % 64]
  else [240 + n / 262144, 128 + n / 4096 % 64, 128 + n / 64 % 64, 128 + n % 64]

/-- Model of `str.encode("utf-8")`. -/
def utf8Encode (s : PyStr) : List ℕ := (s.map utf8Char).flatten

/-- Standard base64 alphabet character. -/
def b64Char (n : ℕ) : Char :=
  if n < 26 then Char.ofNat (65 + n)
  else if n < 52 then Char.ofNat (97 + (n - 26))
  else if n < 62 then digitChar (n - 52)
  else if n = 62 then '+'
  else '/'

/-- Model of `base64.b64encode` (standard alphabet, `=` padding). -/
def pyB64Encode : List ℕ → PyStr
  | [] => []
  | [a] => [b64Char (a / 4), b64Char (a % 4 * 16), '=', '=']
  | [a, b] => [b64Char (a / 4), b64Char (a % 4 * 16 + b / 16), b64Char (b % 16 * 4), '=']
  | a :: b :: c :: rest =>
    b64Char (a / 4) :: b64Char (a % 4 * 16 + b / 16) ::
      b64Char (b % 16 * 4 + c / 64) :: b64Char (c % 64) :: pyB64Encode rest

/-- Model of the `FIRSSigningPayload` pydantic model. -/
structure FIRSSigningPayload where
  irn : PyStr
  certificate : PyStr
  deriving Repr, DecidableEq

/-- Model of the `FIRSEncryptionResult` pydantic model.  Its `timestamp`
is the one taken in milliseconds. -/
structure FIRSEncryptionResult where
  encrypted_base64 : PyStr
  timestamp : ℤ
  deriving Repr, DecidableEq

/-- Model of the `FIRSSigningResult` pydantic model. -/
structure FIRSSigningResult where
  encrypted_data : PyStr
  encryption_result : FIRSEncryptionResult
  timestamp : ℤ
  irn_with_timestamp : PyStr
  deriving Repr, DecidableEq

/-- Loaded key state of a `FIRSSigner` (`_load_firs_keys` may leave either
field unset). -/
structure FIRSSignerSt where
  firs_public_key_pem : Option PyStr
  firs_certificate : Option PyStr
  deriving Repr, DecidableEq

/-- Python `x or y` on an optional integer: `None` and `0` select `y`. -/
def pyOrInt (o : Option ℤ) (dflt : ℤ) : ℤ :=
  match o with
  | none => dflt
  | some v => if v = 0 then dflt else v

/-- Model of `FIRSSigner._encrypt_payload`: guard on configured keys, build
the reduced two-key payload dict, serialize, encrypt, base64-encode; the
result metadata timestamp is `int(time.time() * 1000)`, milliseconds,
passed in as `nowMs`. -/
def encrypt_payload (pkcs1v15Encrypt : List ℕ → List ℕ) (nowMs : ℤ)
    (st : FIRSSignerSt) (payload : FIRSSigningPayload) :
    Except String FIRSEncryptionResult :=
  if !truthyStr st.firs_public_key_pem || !truthyStr st.firs_certificate then
    .error "FIRS public key and certificate must be loaded before encryption"
  else
    let data_bytes := utf8Encode (jsonDumpsIrnCert payload.irn payload.certificate)
    .ok { encrypted_base64 := pyB64Encode (pkcs1v15Encrypt data_bytes)
        , timestamp := nowMs }

/-- Model of `FIRSSigner.sign_irn`: `ts = timestamp or int(time.time())`
(so `0` falls through to the clock `nowSec`), `irn_with_timestamp`
formed with a dot, payload built from it and the certificate, then
encrypted. -/
def sign_irn (pkcs1v15Encrypt : List ℕ → List ℕ) (nowSec nowMs : ℤ)
    (st : FIRSSignerSt) (irn : PyStr) (timestamp : Option ℤ) :
    Except String FIRSSigningResult :=
  let ts := pyOrInt timestamp nowSec
  let irn_with_timestamp := irn ++ '.' :: intStr ts
  let payload : FIRSSigningPayload :=
    { irn := irn_with_timestamp, certificate := pyOrStr st.firs_certificate [] }
  match encrypt_payload pkcs1v15Encrypt nowMs st payload with
  | .error e => .error e
  | .ok er =>
    .ok { encrypted_data := er.encrypted_base64
        , encryption_result := er
        , timestamp := ts
        , irn_with_timestamp := irn_with_timestamp }

/-! ### Line items and invoices (src/firs_einvoice/models/line_item.py,
src/firs_einvoice/models/invoice.py, src/zutax/models/invoice.py)

Fields of the pydantic models that play no role in the monetary
computations (identifiers, barcodes, parties, metadata, …) are omitted;
all fields entering the computed totals are kept. -/

/-- Model of the `Discount` pydantic model. -/
structure Discount where
  amount : Option ℚ
  percent : Option ℚ
  description : Option PyStr
  deriving Repr, DecidableEq

/-- Model of the `Charge` pydantic model. -/
structure Charge where
  amount : ℚ
  description : PyStr
  tax_category : Option PyStr
  deriving Repr, DecidableEq

/-- Decimal-places-2 constraint of `Field(decimal_places=2)`. -/
def dpOk2 (q : ℚ) : Bool := (q * 100).den = 1

/-- Model of the `validate_discount` field validator of `Discount`: it is
registered for the fields `amount` and `percent`, and consults
`info.data`, the dict of the fields validated so far.  `dataAmount` and
`dataPercent` are the entries of that dict at the time of the call. -/
def validate_discount (v : Option ℚ) (dataAmount dataPercent : Option ℚ) :
    Except String (Option ℚ) :=
  if truthyQ dataAmount && truthyQ dataPercent then
    .error "Cannot specify both discount amount and percentage"
  else .ok v

/-- Model of constructing a `Discount(amount=…, percent=…)`: pydantic
validates the fields in declaration order; for each field the `Field`
constraints run, then `validate_discount` with `info.data` holding only
the previously completed fields (while `amount` is validated the dict is
empty; while `percent` is validated it holds `amount` but not `percent`). -/
def mkDiscount (amount percent : Option ℚ) : Except String Discount :=
  if !(match amount with | none => true | some a => decide (0 ≤ a) && dpOk2 a) then
    .error "amount constraint violated"
  else
    match validate_discount amount none none with
    | .error e => .error e
    | .ok a =>
      if !(match percent with
           | none => true
           | some p => decide (0 ≤ p) && decide (p ≤ 100) && dpOk2 p) then
        .error "percent constraint violated"
      else
        match validate_discount percent a none with
        | .error e => .error e
        | .ok p => .ok { amount := a, percent := p, description := none }

/-- Model of the `LineItem` pydantic model (monetary fields). -/
structure LineItem where
  description : PyStr
  hsn_code : PyStr
  quantity : ℚ
  unit_price : ℚ
  discount : Option Discount
  charges : Option (List Charge)
  tax_rate : ℚ
  tax_exempt : Bool
  tax_exempt_reason : Option PyStr
  discount_percent : Option ℚ
  deriving Repr, DecidableEq

/-- Computed field `LineItem.base_amount = quantity * unit_price`. -/
def LineItem.base_amount (li : LineItem) : ℚ := li.quantity * li.unit_price

/-- Computed field `LineItem.discount_amount`: the convenience percentage
field wins, then the `Discount` object's amount, then its percentage. -/
def LineItem.discount_amount (li : LineItem) : ℚ :=
  if truthyQ li.discount_percent then
    li.base_amount * li.discount_percent.getD 0 / 100
  else
    match li.discount with
    | none => 0
    | some d =>
      if truthyQ d.amount then d.amount.getD 0
      else if truthyQ d.percent then li.base_amount * d.percent.getD 0 / 100
      else 0

/-- Computed field `LineItem.charge_amount`: 0 for a falsy charge list,
otherwise the sum of the charge amounts. -/
def LineItem.charge_amount (li : LineItem) : ℚ :=
  match li.charges with
  | none => 0
  | some cs => if cs.isEmpty then 0 else (cs.map Charge.amount).sum

/-- Computed field `LineItem.taxable_amount`. -/
def LineItem.taxable_amount (li : LineItem) : ℚ :=
  li.base_amount - li.discount_amount + li.charge_amount

/-- Computed field `LineItem.tax_amount`. -/
def LineItem.tax_amount (li : LineItem) : ℚ :=
  if li.tax_exempt then 0 else li.taxable_amount * li.tax_rate / 100

/-- Computed field `LineItem.line_total`. -/
def LineItem.line_total (li : LineItem) : ℚ :=
  li.taxable_amount + li.tax_amount

/-- Model of the legacy `Invoice` (src/firs_einvoice/models/invoice.py):
its five totals are pydantic `computed_field` properties, so the model
stores only the line items and every total is recomputed on read. -/
structure LegacyInvoice where
  invoice_number : PyStr
  line_items : List LineItem
  deriving Repr, DecidableEq

/-- Computed field `Invoice.subtotal` of the legacy model. -/
def LegacyInvoice.subtotal (inv : LegacyInvoice) : ℚ :=
  (inv.line_items.map LineItem.base_amount).sum

/-- Computed field `Invoice.total_discount` of the legacy model. -/
def LegacyInvoice.total_discount (inv : LegacyInvoice) : ℚ :=
  (inv.line_items.map LineItem.discount_amount).sum

/-- Computed field `Invoice.total_charges` of the legacy model. -/
def LegacyInvoice.total_charges (inv : LegacyInvoice) : ℚ :=
  (inv.line_items.map LineItem.charge_amount).sum

/-- Computed field `Invoice.total_tax` of the legacy model. -/
def LegacyInvoice.total_tax (inv : LegacyInvoice) : ℚ :=
  (inv.line_items.map LineItem.tax_amount).sum

/-- Computed field `Invoice.total_amount` of the legacy model. -/
def LegacyInvoice.total_amount (inv : LegacyInvoice) : ℚ :=
  (inv.line_items.map LineItem.line_total).sum

/-- Model of the Zutax `Invoice` (src/zutax/models/invoice.py): here the
five totals are ordinary stored optional fields, `Field(None, ge=0,
decimal_places=2)`, commented "to be calculated externally".  (The Zutax
`line_items` elements come from `zutax/models/line_item.py`, which is not
shipped under `src/`; the legacy `LineItem` model above, of which it is
the native twin per the spec's single LineItem data model, stands in.) -/
structure ZutaxInvoice where
  invoice_number : PyStr
  line_items : List LineItem
  subtotal : Option ℚ
  total_discount : Option ℚ
  total_charges : Option ℚ
  total_tax : Option ℚ
  total_amount : Option ℚ
  deriving Repr, DecidableEq

/-- Constraint of each stored Zutax total: absent, or nonnegative with at
most two decimal places. -/
def totalFieldOk (o : Option ℚ) : Bool :=
  match o with
  | none => true
  | some q => decide (0 ≤ q) && dpOk2 q

/-- Every validation the Zutax `Invoice` model applies that mentions the
totals or the line items: the five `Field(ge=0, decimal_places=2)`
constraints and the `validate_line_items_required` model validator.  No
validator of the model relates a stored total to the line items. -/
def zutaxInvoiceOk (inv : ZutaxInvoice) : Bool :=
  totalFieldOk inv.subtotal && totalFieldOk inv.total_discount &&
    totalFieldOk inv.total_charges && totalFieldOk inv.total_tax &&
    totalFieldOk inv.total_amount && !inv.line_items.isEmpty

/-! ## Helper lemmas -/

/-- Association-list lookup only returns stored pairs. -/
theorem lookup_eq_some_mem {α β : Type} [BEq α] [LawfulBEq α]
    {l : List (α × β)} {k : α} {v : β} (h : l.lookup k = some v) :
    (k, v) ∈ l := by
  induction l with
  | nil => simp [List.lookup] at h
  | cons p t ih =>
    obtain ⟨a, b⟩ := p
    rw [List.lookup] at h
    by_cases hk : k = a
    · subst hk
      simp at h
      simp [h]
    · have : (k == a) = false := beq_false_of_ne hk
      rw [this] at h
      exact List.mem_cons_of_mem _ (ih h)

/-- Every entry the HSN lookup can return comes from the database list. -/
theorem get_hsn_code_mem {code : PyStr} {h : HSNCode}
    (hh : get_hsn_code code = some h) : ∃ k, (k, h) ∈ hsnDatabase := by
  unfold get_hsn_code at hh
  cases hl : hsnDatabase.lookup code with
  | some v =>
    rw [hl] at hh
    injection hh with hv
    subst hv
    exact ⟨_, lookup_eq_some_mem hl⟩
  | none =>
    rw [hl] at hh
    by_cases hlen : 4 ≤ code.length
    · rw [if_pos hlen] at hh
      exact ⟨_, lookup_eq_some_mem hh⟩
    · rw [if_neg hlen] at hh
      cases hh

/-- In the shipped database every exempt entry carries a nonempty
exemption reason. -/
theorem hsnDatabase_exempt_reason :
    ∀ p ∈ hsnDatabase, p.2.is_exempt = true → truthyStr p.2.exemption_reason = true := by
  decide

/-- An exempt code always resolves to a nonempty registry reason. -/
theorem is_exempt_truthy_reason {code : PyStr} (h : is_exempt code = true) :
    truthyStr (get_exemption_reason code) = true := by
  unfold is_exempt at h
  rcases hg : get_hsn_code code with _ | entry
  · rw [hg] at h; cases h
  · rw [hg] at h
    obtain ⟨k, hk⟩ := get_hsn_code_mem hg
    have := hsnDatabase_exempt_reason _ hk h
    unfold get_exemption_reason
    rw [hg]
    exact this

/-- The empty code is never exempt (its lookup finds nothing). -/
theorem is_exempt_nil : is_exempt [] = false := by decide

/-- Rate resolution order as the spec states it: custom rate first, then
the registry rate of a supplied code, then the default 7.5. -/
def specResolvedRate (hsn_code : Option PyStr) (custom_rate : Option ℚ) : ℚ :=
  match custom_rate with
  | some r => r
  | none => if truthyStr hsn_code then get_tax_rate (hsn_code.getD []) else VAT_RATE

/-- Default detail used with `List.getD` when indexing breakdown details. -/
def defaultDetail : TaxCalculation :=
  { category := [], rate := 0, base_amount := 0, tax_amount := 0, exemption_reason := none }

/-- Bucket/total bookkeeping invariant of a `TaxBreakdown`: each bucket is
the sum of the tax amounts of its details, selected by category exactly as
the `if/elif` chain of the source selects them, and the total is the sum of
all detail tax amounts. -/
def bucketsConsistent (b : TaxBreakdown) : Prop :=
  b.vat = (b.details.map fun d => if d.category = pystr "VAT" then d.tax_amount else 0).sum
  ∧ b.excise = (b.details.map fun d => if d.category = pystr "EXCISE" then d.tax_amount else 0).sum
  ∧ b.customs = (b.details.map fun d => if d.category = pystr "CUSTOMS" then d.tax_amount else 0).sum
  ∧ b.other = (b.details.map fun d =>
      if d.category ≠ pystr "VAT" ∧ d.category ≠ pystr "EXCISE" ∧ d.category ≠ pystr "CUSTOMS"
      then d.tax_amount else 0).sum
  ∧ b.total = (b.details.map TaxCalculation.tax_amount).sum

/-- Appending a detail and bucketing its tax amount preserves the
bookkeeping invariant. -/
theorem addToBuckets_preserves (b : TaxBreakdown) (d : TaxCalculation)
    (hb : bucketsConsistent b) :
    bucketsConsistent
      (addToBuckets { b with details := b.details ++ [d] } d.category d.tax_amount) := by
  obtain ⟨h1, h2, h3, h4, h5⟩ := hb
  have hve : pystr "VAT" ≠ pystr "EXCISE" := by decide
  have hvc : pystr "VAT" ≠ pystr "CUSTOMS" := by decide
  have hec : pystr "EXCISE" ≠ pystr "CUSTOMS" := by decide
  unfold bucketsConsistent addToBuckets
  by_cases hv : d.category = pystr "VAT"
  · rw [if_pos hv]
    refine ⟨?_, ?_, ?_, ?_, ?_⟩ <;> simp [h1, h2, h3, h4, h5, hv, hve, hvc]
  · rw [if_neg hv]
    by_cases he : d.category = pystr "EXCISE"
    · rw [if_pos he]
      refine ⟨?_, ?_, ?_, ?_, ?_⟩ <;> simp [h1, h2, h3, h4, h5, he, hve.symm, hec]
    · rw [if_neg he]
      by_cases hc : d.category = pystr "CUSTOMS"
      · rw [if_pos hc]
        refine ⟨?_, ?_, ?_, ?_, ?_⟩ <;>
          simp [h1, h2, h3, h4, h5, hc, hvc.symm, hec.symm]
      · rw [if_neg hc]
        refine ⟨?_, ?_, ?_, ?_, ?_⟩ <;> simp [h1, h2, h3, h4, h5, hv, he, hc]

/-- The empty breakdown satisfies the bookkeeping invariant. -/
theorem emptyBreakdown_consistent : bucketsConsistent emptyBreakdown := by
  simp [bucketsConsistent, emptyBreakdown]

/-- The additive loop preserves the bookkeeping invariant. -/
theorem foldl_stepMultiple_consistent (a : ℚ) (ts : List TaxIn) (b : TaxBreakdown)
    (hb : bucketsConsistent b) : bucketsConsistent (ts.foldl (stepMultiple a) b) := by
  induction ts generalizing b with
  | nil => simpa using hb
  | cons t ts ih =>
    rw [List.foldl_cons]
    exact ih _ (addToBuckets_preserves b
      { category := t.category, rate := t.rate, base_amount := a,
        tax_amount := roundHalfUp2 (a * t.rate / 100), exemption_reason := none } hb)

/-- The cascading loop preserves the bookkeeping invariant. -/
theorem foldl_stepCascade_consistent (ts : List TaxIn) :
    ∀ st : ℚ × TaxBreakdown, bucketsConsistent st.2 →
      bucketsConsistent (ts.foldl stepCascade st).2 := by
  induction ts with
  | nil => intro st hb; simpa using hb
  | cons t ts ih =>
    intro st hb
    rw [List.foldl_cons]
    exact ih _ (addToBuckets_preserves st.2
      { category := t.category, rate := t.rate, base_amount := st.1,
        tax_amount := roundHalfUp2 (st.1 * t.rate / 100), exemption_reason := none } hb)

/-- Bucketing never changes the stored details. -/
theorem addToBuckets_details (b : TaxBreakdown) (c : PyStr) (ta : ℚ) :
    (addToBuckets b c ta).details = b.details := by
  unfold addToBuckets
  split_ifs <;> rfl

/-- Details accumulated by the additive loop: every tax is computed off the
same original base amount. -/
theorem foldl_stepMultiple_details (a : ℚ) (ts : List TaxIn) :
    ∀ b : TaxBreakdown, (ts.foldl (stepMultiple a) b).details =
      b.details ++ ts.map (fun t =>
        { category := t.category, rate := t.rate, base_amount := a,
          tax_amount := roundHalfUp2 (a * t.rate / 100), exemption_reason := none }) := by
  induction ts with
  | nil => intro b; simp
  | cons t ts ih =>
    intro b
    rw [List.foldl_cons, ih]
    unfold stepMultiple
    rw [addToBuckets_details]
    simp

/-- Reference recursion for the cascading details: each entry is computed
off the running amount, which then grows by the entry's tax amount. -/
def cascadeDetailsSpec (a : ℚ) : List TaxIn → List TaxCalculation
  | [] => []
  | t :: ts =>
    let ta := roundHalfUp2 (a * t.rate / 100)
    { category := t.category, rate := t.rate, base_amount := a,
      tax_amount := ta, exemption_reason := none } :: cascadeDetailsSpec (a + ta) ts

/-- Details accumulated by the cascading loop match the reference
recursion started at the running amount. -/
theorem foldl_stepCascade_details (ts : List TaxIn) :
    ∀ st : ℚ × TaxBreakdown, (ts.foldl stepCascade st).2.details =
      st.2.details ++ cascadeDetailsSpec st.1 ts := by
  induction ts with
  | nil => intro st; simp [cascadeDetailsSpec]
  | cons t ts ih =>
    intro st
    rw [List.foldl_cons, ih]
    unfold stepCascade
    rw [addToBuckets_details]
    simp [cascadeDetailsSpec]

/-- In the reference recursion, the i-th base amount is the starting
amount plus the sum of all previously computed tax amounts. -/
theorem cascadeDetailsSpec_base (ts : List TaxIn) :
    ∀ (a : ℚ) (i : ℕ), i < (cascadeDetailsSpec a ts).length →
      ((cascadeDetailsSpec a ts).getD i defaultDetail).base_amount =
        a + (((cascadeDetailsSpec a ts).take i).map TaxCalculation.tax_amount).sum := by
  induction ts with
  | nil => intro a i h; simp [cascadeDetailsSpec] at h
  | cons t ts ih =>
    intro a i h
    cases i with
    | zero => simp [cascadeDetailsSpec]
    | succ i =>
      rw [cascadeDetailsSpec] at h ⊢
      simp only [List.length_cons, Nat.succ_lt_succ_iff] at h
      simp only [List.getD_cons_succ, List.take_succ_cons, List.map_cons, List.sum_cons]
      rw [ih _ i h]
      ring

/-- A split never produces the empty list of parts. -/
theorem pySplit_ne_nil (sep : Char) (s : PyStr) : pySplit sep s ≠ [] := by
  induction s with
  | nil => simp [pySplit]
  | cons c cs ih =>
    rw [pySplit]
    by_cases hc : c = sep
    · simp [hc]
    · rw [if_neg hc]
      cases h : pySplit sep cs with
      | nil => simp
      | cons t ts => simp

/-- Splitting a concatenation around one separator occurrence splits each
side independently. -/
theorem pySplit_append_sep (sep : Char) (a b : PyStr) :
    pySplit sep (a ++ sep :: b) = pySplit sep a ++ pySplit sep b := by
  induction a with
  | nil => simp [pySplit]
  | cons c cs ih =>
    by_cases hc : c = sep
    · simp only [List.cons_append, pySplit, if_pos hc, List.append_eq, ih]
    · simp only [List.cons_append, pySplit, if_neg hc, List.append_eq, ih]
      cases h : pySplit sep cs with
      | nil => exact absurd h (pySplit_ne_nil sep cs)
      | cons t ts => simp [h]

/-- A separator-free string splits into the single part it is. -/
theorem pySplit_sep_free (sep : Char) (s : PyStr) (h : ∀ c ∈ s, c ≠ sep) :
    pySplit sep s = [s] := by
  induction s with
  | nil => rfl
  | cons c cs ih =>
    rw [pySplit, if_neg (h c (by simp)),
      ih (fun x hx => h x (List.mem_cons_of_mem _ hx))]

/-- Joining with the separator undoes splitting on it. -/
theorem pyJoin_pySplit (sep : Char) (s : PyStr) :
    pyJoin sep (pySplit sep s) = s := by
  induction s with
  | nil => rfl
  | cons c cs ih =>
    rw [pySplit]
    by_cases hc : c = sep
    · rw [if_pos hc]
      cases h : pySplit sep cs with
      | nil => exact absurd h (pySplit_ne_nil sep cs)
      | cons t ts =>
        rw [h] at ih
        simp [pyJoin, ih, hc]
    · rw [if_neg hc]
      cases h : pySplit sep cs with
      | nil => exact absurd h (pySplit_ne_nil sep cs)
      | cons t ts =>
        rw [h] at ih
        cases ts with
        | nil => simp_all [pyJoin]
        | cons u us => simp_all [pyJoin]

/-- Decimal digit characters satisfy `isDigit`. -/
theorem digitChar_isDigit {d : ℕ} (h : d < 10) : (digitChar d).isDigit = true := by
  interval_cases d <;> decide

/-- Decimal digit characters are never the IRN separator. -/
theorem digitChar_ne_hyphen {d : ℕ} (h : d < 10) : digitChar d ≠ '-' := by
  interval_cases d <;> decide

/-- Reading a digit character back gives the digit. -/
theorem digitVal_digitChar {d : ℕ} (h : d < 10) : digitVal (digitChar d) = d := by
  interval_cases d <;> decide

/-- Folding the decimal-value accumulator over a digit string rendered from
little-endian digits recovers `Nat.ofDigits`. -/
theorem foldl_digitsVal (l : List ℕ) (hl : ∀ d ∈ l, d < 10) (a : ℕ) :
    ((l.reverse.map digitChar).foldl (fun acc c => 10 * acc + digitVal c) a) =
      a * 10 ^ l.length + Nat.ofDigits 10 l := by
  induction l generalizing a with
  | nil => simp
  | cons d L ih =>
    simp only [List.reverse_cons, List.map_append, List.map_cons, List.map_nil,
      List.foldl_append, List.foldl_cons, List.foldl_nil, List.length_cons]
    rw [ih (fun x hx => hl x (List.mem_cons_of_mem _ hx)) a,
      digitVal_digitChar (hl d (List.mem_cons_self d L)), Nat.ofDigits_cons]
    ring

/-- Reading the decimal rendering of a natural number back gives it. -/
theorem digitsVal_natChars (y : ℕ) : digitsVal (natChars y) = y := by
  unfold digitsVal natChars
  rw [foldl_digitsVal _ (fun d hd => Nat.digits_lt_base (by norm_num) hd) 0]
  simp [Nat.ofDigits_digits]

/-- Four-digit years render to exactly four characters. -/
theorem natChars_length {y : ℕ} (h1 : 1000 ≤ y) (h2 : y ≤ 9999) :
    (natChars y).length = 4 := by
  unfold natChars
  rw [List.length_map, List.length_reverse,
    Nat.digits_len 10 y (by norm_num) (by omega)]
  have hlog : Nat.log 10 y = 3 :=
    Nat.log_eq_of_pow_le_of_lt_pow (by norm_num; omega) (by norm_num; omega)
  omega

/-- Every character of a rendered natural number is a digit character. -/
theorem natChars_digits {y : ℕ} : ∀ c ∈ natChars y, ∃ v, v < 10 ∧ c = digitChar v := by
  intro c hc
  unfold natChars at hc
  obtain ⟨v, hv, rfl⟩ := List.mem_map.mp hc
  exact ⟨v, Nat.digits_lt_base (by norm_num) (List.mem_reverse.mp hv), rfl⟩

/-- Every character of a two-digit field is a digit character. -/
theorem pad2_digits (n : ℕ) : ∀ c ∈ pad2 n, ∃ v, v < 10 ∧ c = digitChar v := by
  intro c hc
  unfold pad2 at hc
  rcases List.mem_cons.mp hc with h | h
  · exact ⟨n / 10 % 10, Nat.mod_lt _ (by norm_num), h⟩
  · rcases List.mem_cons.mp h with h2 | h2
    · exact ⟨n % 10, Nat.mod_lt _ (by norm_num), h2⟩
    · cases h2

/-- Reading a two-digit field back gives the value, below 100. -/
theorem digitsVal_pad2 {n : ℕ} (h : n ≤ 99) : digitsVal (pad2 n) = n := by
  unfold digitsVal pad2
  simp only [List.foldl_cons, List.foldl_nil]
  rw [digitVal_digitChar (Nat.mod_lt _ (by norm_num)),
    digitVal_digitChar (Nat.mod_lt _ (by norm_num))]
  omega

/-- A date stamp of a four-digit year has exactly eight characters. -/
theorem dateStamp_length {pd : PyDate} (h1 : 1000 ≤ pd.year) (h2 : pd.year ≤ 9999) :
    (dateStamp pd).length = 8 := by
  unfold dateStamp pad2
  simp [natChars_length h1 h2]

/-- Every character of a date stamp is a digit character. -/
theorem dateStamp_chars (pd : PyDate) :
    ∀ c ∈ dateStamp pd, ∃ v, v < 10 ∧ c = digitChar v := by
  intro c hc
  unfold dateStamp at hc
  rcases List.mem_append.mp hc with h | h
  · rcases List.mem_append.mp h with h2 | h2
    · exact natChars_digits c h2
    · exact pad2_digits _ c h2
  · exact pad2_digits _ c h

/-- The first four characters of a date stamp are the rendered year. -/
theorem dateStamp_take4 {pd : PyDate} (h1 : 1000 ≤ pd.year) (h2 : pd.year ≤ 9999) :
    (dateStamp pd).take 4 = natChars pd.year := by
  unfold dateStamp
  rw [List.append_assoc, ← natChars_length h1 h2, List.take_left]

/-- Characters five and six of a date stamp are the two-digit month. -/
theorem dateStamp_month2 {pd : PyDate} (h1 : 1000 ≤ pd.year) (h2 : pd.year ≤ 9999) :
    ((dateStamp pd).drop 4).take 2 = pad2 pd.month := by
  unfold dateStamp
  rw [List.append_assoc, ← natChars_length h1 h2, List.drop_left]
  have hp : (pad2 pd.month).length = 2 := rfl
  rw [← hp, List.take_left]

/-- The last two characters of a date stamp are the two-digit day. -/
theorem dateStamp_day2 {pd : PyDate} (h1 : 1000 ≤ pd.year) (h2 : pd.year ≤ 9999) :
    (dateStamp pd).drop 6 = pad2 pd.day := by
  unfold dateStamp
  have h6 : (natChars pd.year ++ pad2 pd.month).length = 6 := by
    simp [natChars_length h1 h2, pad2]
  rw [List.append_assoc, ← List.append_assoc, ← h6, List.drop_left]

/-- The `strptime` re-parse accepts the stamp of a valid date with a
four-digit year. -/
theorem strptime_dateStamp {pd : PyDate} (h1 : 1000 ≤ pd.year) (h2 : pd.year ≤ 9999)
    (hm : pd.month ≤ 99) (hd : pd.day ≤ 99)
    (hv : validYMD pd.year pd.month pd.day = true) :
    strptimeOkYMD (dateStamp pd) = true := by
  unfold strptimeOkYMD
  rw [dateStamp_take4 h1 h2, dateStamp_month2 h1 h2, dateStamp_day2 h1 h2,
    digitsVal_natChars, digitsVal_pad2 hm, digitsVal_pad2 hd]
  exact hv

/-- ASCII alphanumeric characters are never the IRN separator. -/
theorem isAsciiAlnum_ne_hyphen {c : Char} (h : isAsciiAlnum c = true) : c ≠ '-' := by
  intro he
  subst he
  exact absurd h (by decide)

/-- Uppercasing preserves ASCII alphanumerics. -/
theorem pyUpperChar_alnum {c : Char} (h : isAsciiAlnum c = true) :
    isAsciiAlnum (pyUpperChar c) = true := by
  unfold pyUpperChar
  by_cases hb : (97 ≤ c.toNat && c.toNat ≤ 122) = true
  · rw [if_pos hb]
    simp only [Bool.and_eq_true, decide_eq_true_eq] at hb
    have h65 : 65 ≤ c.toNat - 32 := by omega
    have h90 : c.toNat - 32 ≤ 90 := by omega
    generalize c.toNat - 32 = k at h65 h90
    interval_cases k <;> decide
  · rw [if_neg hb]
    exact h

/-- Uppercasing a string of ASCII alphanumerics yields one. -/
theorem pyUpper_alnum {s : PyStr} (h : ∀ c ∈ s, isAsciiAlnum c = true) :
    ∀ c ∈ pyUpper s, isAsciiAlnum c = true := by
  intro c hc
  obtain ⟨x, hx, rfl⟩ := List.mem_map.mp hc
  exact pyUpperChar_alnum (h x hx)

/-- Splitting a well-formed IRN separates the invoice number's own parts
from the service id and date stamp. -/
theorem pySplit_build {n sid dsx : PyStr}
    (hs : ∀ c ∈ sid, c ≠ '-') (hd : ∀ c ∈ dsx, c ≠ '-') :
    pySplit '-' (n ++ '-' :: (sid ++ '-' :: dsx)) = pySplit '-' n ++ [sid, dsx] := by
  rw [pySplit_append_sep, pySplit_append_sep, pySplit_sep_free _ _ hs,
    pySplit_sep_free _ _ hd]
  rfl

/-- A well-formed IRN built from a nonempty invoice number, an 8-character
alphanumeric service id and an 8-digit stamp passing the `strptime` check
validates. -/
theorem validate_irn_build {n sid dsx : PyStr} (hn : n ≠ [])
    (hsidlen : sid.length = 8) (hsal : ∀ c ∈ sid, isAsciiAlnum c = true)
    (hdslen : dsx.length = 8)
    (hdsdig : ∀ c ∈ dsx, ∃ v, v < 10 ∧ c = digitChar v)
    (hok : strptimeOkYMD dsx = true) :
    validate_irn (n ++ '-' :: (sid ++ '-' :: dsx)) = true := by
  have hsfree : ∀ c ∈ sid, c ≠ '-' := fun c hc => isAsciiAlnum_ne_hyphen (hsal c hc)
  have hdfree : ∀ c ∈ dsx, c ≠ '-' := by
    intro c hc
    obtain ⟨v, hv, rfl⟩ := hdsdig c hc
    exact digitChar_ne_hyphen hv
  have hne : (n ++ '-' :: (sid ++ '-' :: dsx)).isEmpty = false := by
    cases n <;> rfl
  have hsplit := pySplit_build (n := n) hsfree hdfree
  have hlen3 : ¬(pySplit '-' n ++ [sid, dsx]).length < 3 := by
    have := List.length_pos.mpr (pySplit_ne_nil '-' n)
    simp only [List.length_append, List.length_cons, List.length_nil]
    omega
  have hjoin : pyJoin '-' ((pySplit '-' n).reverse.reverse) = n := by
    rw [List.reverse_reverse, pyJoin_pySplit]
  have hnempty : n.isEmpty = false := by
    cases n
    · exact absurd rfl hn
    · rfl
  have hall_al : sid.all isAsciiAlnum = true :=
    List.all_eq_true.mpr (fun c hc => hsal c hc)
  have hall_dig : dsx.all Char.isDigit = true :=
    List.all_eq_true.mpr (fun c hc => by
      obtain ⟨v, hv, rfl⟩ := hdsdig c hc
      exact digitChar_isDigit hv)
  have hsid_ne : sid.isEmpty = false := by
    cases sid
    · simp at hsidlen
    · rfl
  have hds_ne : dsx.isEmpty = false := by
    cases dsx
    · simp at hdslen
    · rfl
  unfold validate_irn
  rw [hne, hsplit]
  simp only [Bool.false_eq_true, if_false, if_neg hlen3, List.reverse_append,
    List.reverse_cons, List.reverse_nil, List.nil_append, List.cons_append,
    hjoin, hnempty, hsidlen, hdslen, pyIsAlnum, pyIsDigit, hall_al, hall_dig,
    hsid_ne, hds_ne, hok]
  simp

/-- Parsing a well-formed IRN recovers its three components and the parsed
date values. -/
theorem extract_components_build {n sid dsx : PyStr} (hn : n ≠ [])
    (hsidlen : sid.length = 8) (hsal : ∀ c ∈ sid, isAsciiAlnum c = true)
    (hdslen : dsx.length = 8)
    (hdsdig : ∀ c ∈ dsx, ∃ v, v < 10 ∧ c = digitChar v)
    (hok : strptimeOkYMD dsx = true) :
    extract_components (n ++ '-' :: (sid ++ '-' :: dsx)) =
      .ok { invoice_number := n, service_id := sid, date_stamp := dsx,
            issue_date :=
              { year := digitsVal (dsx.take 4),
                month := digitsVal ((dsx.drop 4).take 2),
                day := digitsVal (dsx.drop 6) } } := by
  have hsfree : ∀ c ∈ sid, c ≠ '-' := fun c hc => isAsciiAlnum_ne_hyphen (hsal c hc)
  have hdfree : ∀ c ∈ dsx, c ≠ '-' := by
    intro c hc
    obtain ⟨v, hv, rfl⟩ := hdsdig c hc
    exact digitChar_ne_hyphen hv
  have hval := validate_irn_build hn hsidlen hsal hdslen hdsdig hok
  have hsplit := pySplit_build (n := n) hsfree hdfree
  have hjoin : pyJoin '-' ((pySplit '-' n).reverse.reverse) = n := by
    rw [List.reverse_reverse, pyJoin_pySplit]
  unfold extract_components
  rw [hval, hsplit]
  simp only [Bool.not_true, Bool.false_eq_true, if_false, List.reverse_append,
    List.reverse_cons, List.reverse_nil, List.nil_append, List.cons_append,
    hjoin]

/-- An IRN whose second-to-last token does not have exactly 8 characters
never validates. -/
theorem validate_irn_shortsid {n sid dsx : PyStr} (hsidlen : sid.length ≠ 8)
    (hs : ∀ c ∈ sid, c ≠ '-') (hd : ∀ c ∈ dsx, c ≠ '-') :
    validate_irn (n ++ '-' :: (sid ++ '-' :: dsx)) = false := by
  have hne : (n ++ '-' :: (sid ++ '-' :: dsx)).isEmpty = false := by
    cases n <;> rfl
  have hsplit := pySplit_build (n := n) hs hd
  have hlen3 : ¬(pySplit '-' n ++ [sid, dsx]).length < 3 := by
    have := List.length_pos.mpr (pySplit_ne_nil '-' n)
    simp only [List.length_append, List.length_cons, List.length_nil]
    omega
  have hjoin : pyJoin '-' ((pySplit '-' n).reverse.reverse) = n := by
    rw [List.reverse_reverse, pyJoin_pySplit]
  unfold validate_irn
  rw [hne, hsplit]
  simp only [Bool.false_eq_true, if_false, if_neg hlen3, List.reverse_append,
    List.reverse_cons, List.reverse_nil, List.nil_append, List.cons_append,
    hjoin]
  by_cases hemp : n.isEmpty = true
  · simp [hemp]
  · simp [hemp, hsidlen]

/-- The month and day of a `datetime`-valid triple fit in two digits, and
the year is positive. -/
theorem validYMD_bounds {y m d : ℕ} (h : validYMD y m d = true) :
    1 ≤ y ∧ m ≤ 12 ∧ d ≤ 31 := by
  unfold validYMD at h
  simp only [Bool.and_eq_true, decide_eq_true_eq] at h
  have hdm : daysInMonth y m ≤ 31 := by
    unfold daysInMonth
    split_ifs <;> omega
  omega

/-- `create_custom_irn` with a supplied service id of at least 8
alphanumeric characters truncates it to 8, uppercases it, and returns the
built IRN. -/
theorem create_custom_irn_ok {genSid n s : PyStr} {nowDate pd : PyDate}
    (hn : n ≠ []) (hs8 : 8 ≤ s.length) (hsal : ∀ c ∈ s, isAsciiAlnum c = true)
    (hy1 : 1000 ≤ pd.year) (hy2 : pd.year ≤ 9999)
    (hv : validYMD pd.year pd.month pd.day = true) :
    create_custom_irn genSid nowDate n (some s) (some pd) =
      .ok (n ++ '-' :: (pyUpper (s.take 8) ++ '-' :: dateStamp pd)) := by
  obtain ⟨hy0, hm, hd⟩ := validYMD_bounds hv
  have hsne : s.isEmpty = false := by
    cases s
    · simp at hs8
    · rfl
  have htake : ∀ c ∈ s.take 8, isAsciiAlnum c = true :=
    fun c hc => hsal c (List.mem_of_mem_take hc)
  have hsidlen : (pyUpper (s.take 8)).length = 8 := by
    simp only [pyUpper, List.length_map, List.length_take]
    omega
  have hval := validate_irn_build hn hsidlen (pyUpper_alnum htake)
    (dateStamp_length hy1 hy2) (dateStamp_chars pd)
    (strptime_dateStamp hy1 hy2 (by omega) (by omega) hv)
  unfold create_custom_irn
  simp only [pyOrStr, hsne, Bool.false_eq_true, if_false, Option.getD_some, hval,
    Bool.not_true]

/-- `create_custom_irn` with a supplied nonempty alphanumeric service id of
fewer than 8 characters raises `ValueError("Generated IRN is invalid")`
instead of padding it. -/
theorem create_custom_irn_short {genSid n s : PyStr} {nowDate pd : PyDate}
    (hs0 : s ≠ []) (hs8 : s.length < 8) (hsal : ∀ c ∈ s, isAsciiAlnum c = true) :
    create_custom_irn genSid nowDate n (some s) (some pd) =
      .error "Generated IRN is invalid" := by
  have hsne : s.isEmpty = false := by
    cases s
    · exact absurd rfl hs0
    · rfl
  have htakes : s.take 8 = s := List.take_of_length_le (by omega)
  have hsidlen : (pyUpper (s.take 8)).length ≠ 8 := by
    simp only [htakes, pyUpper, List.length_map]
    omega
  have hsfree : ∀ c ∈ pyUpper (s.take 8), c ≠ '-' := by
    rw [htakes]
    exact fun c hc => isAsciiAlnum_ne_hyphen (pyUpper_alnum hsal c hc)
  have hdfree : ∀ c ∈ dateStamp pd, c ≠ '-' := by
    intro c hc
    obtain ⟨v, hv, rfl⟩ := dateStamp_chars pd c hc
    exact digitChar_ne_hyphen hv
  have hval := validate_irn_shortsid (n := n) hsidlen hsfree hdfree
  unfold create_custom_irn
  simp only [pyOrStr, hsne, Bool.false_eq_true, if_false, Option.getD_some, hval,
    Bool.not_false, if_true]

/-- Concrete line item used in the stored-totals counterexample:
quantity 1 at unit price 10, no discount, no charges. -/
def sampleLineItem : LineItem :=
  { description := pystr "Widget", hsn_code := pystr "8471", quantity := 1,
    unit_price := 10, discount := none, charges := none, tax_rate := 75/10,
    tax_exempt := false, tax_exempt_reason := none, discount_percent := none }

/-- Concrete Zutax invoice whose stored `subtotal` (999) differs from the
sum of its line items' base amounts (10). -/
def sampleZutaxInvoice : ZutaxInvoice :=
  { invoice_number := pystr "INV-001", line_items := [sampleLineItem],
    subtotal := some 999, total_discount := none, total_charges := none,
    total_tax := none, total_amount := none }

/-! ## Claims -/

/-- C1 counterexample: the Zutax `Invoice` stores its totals as plain
optional fields; this concrete invoice passes every validation the model
applies yet stores `subtotal = 999` while the sum recomputed from its line
items is 10 — a stored total can differ from the derived sum. -/
theorem zutax_invoice_stored_total_drifts :
    zutaxInvoiceOk sampleZutaxInvoice = true
    ∧ sampleZutaxInvoice.subtotal = some 999
    ∧ (sampleZutaxInvoice.line_items.map LineItem.base_amount).sum = 10
    ∧ (999 : ℚ) ≠ 10 := by
  refine ⟨?_, rfl, ?_, by norm_num⟩
  · norm_num [zutaxInvoiceOk, totalFieldOk, dpOk2, sampleZutaxInvoice, sampleLineItem]
  · norm_num [sampleZutaxInvoice, sampleLineItem, LineItem.base_amount]

/-- C1 (amended): in the legacy `Invoice` model the five totals are
`computed_field` properties — always the sums of the corresponding line
item fields, never stored — and they satisfy the accounting identity
`total_amount = subtotal - total_discount + total_charges + total_tax`;
the Zutax `Invoice` model instead stores the totals as independently
settable optional fields (see the counterexample). -/
theorem legacy_invoice_totals_derived :
    ∀ inv : LegacyInvoice,
      inv.subtotal = (inv.line_items.map LineItem.base_amount).sum
      ∧ inv.total_discount = (inv.line_items.map LineItem.discount_amount).sum
      ∧ inv.total_charges = (inv.line_items.map LineItem.charge_amount).sum
      ∧ inv.total_tax = (inv.line_items.map LineItem.tax_amount).sum
      ∧ inv.total_amount = (inv.line_items.map LineItem.line_total).sum
      ∧ inv.total_amount =
          inv.subtotal - inv.total_discount + inv.total_charges + inv.total_tax := by
  intro inv
  refine ⟨rfl, rfl, rfl, rfl, rfl, ?_⟩
  unfold LegacyInvoice.total_amount LegacyInvoice.subtotal LegacyInvoice.total_discount
    LegacyInvoice.total_charges LegacyInvoice.total_tax
  induction inv.line_items with
  | nil => simp
  | cons li lis ih =>
    simp only [List.map_cons, List.sum_cons]
    rw [ih]
    unfold LineItem.line_total LineItem.taxable_amount
    ring

/-- C3: building an IRN from a nonempty invoice number (hyphens allowed),
an 8-character alphanumeric service id and a valid four-digit-year date and
parsing it back recovers `invoice_number = n`, `service_id = s.upper()` and
`date_stamp` formatted as YYYYMMDD (and the parsed issue date equals the
input date); parsing takes the last two hyphen-delimited tokens as service
id and date stamp and rejoins everything before them. -/
theorem irn_roundtrip (n s : PyStr) (pd : PyDate) (genSid : PyStr) (nowDate : PyDate)
    (hn : n ≠ []) (hs8 : s.length = 8) (hsal : ∀ c ∈ s, isAsciiAlnum c = true)
    (hy1 : 1000 ≤ pd.year) (hy2 : pd.year ≤ 9999)
    (hv : validYMD pd.year pd.month pd.day = true) :
    create_custom_irn genSid nowDate n (some s) (some pd) =
      .ok (n ++ '-' :: (pyUpper s ++ '-' :: dateStamp pd))
    ∧ extract_components (n ++ '-' :: (pyUpper s ++ '-' :: dateStamp pd)) =
      .ok { invoice_number := n, service_id := pyUpper s,
            date_stamp := dateStamp pd, issue_date := pd } := by
  obtain ⟨hy0, hm, hd⟩ := validYMD_bounds hv
  have htakes : s.take 8 = s := by
    rw [← hs8]
    exact List.take_length s
  constructor
  · have h := @create_custom_irn_ok genSid n s nowDate pd hn (by omega) hsal hy1 hy2 hv
    rwa [htakes] at h
  · have hsidlen : (pyUpper s).length = 8 := by simp [pyUpper, hs8]
    have hext := extract_components_build hn hsidlen (pyUpper_alnum hsal)
      (dateStamp_length hy1 hy2) (dateStamp_chars pd)
      (strptime_dateStamp hy1 hy2 (by omega) (by omega) hv)
    have e1 : digitsVal ((dateStamp pd).take 4) = pd.year := by
      rw [dateStamp_take4 hy1 hy2, digitsVal_natChars]
    have e2 : digitsVal (((dateStamp pd).drop 4).take 2) = pd.month := by
      rw [dateStamp_month2 hy1 hy2, digitsVal_pad2 (by omega)]
    have e3 : digitsVal ((dateStamp pd).drop 6) = pd.day := by
      rw [dateStamp_day2 hy1 hy2, digitsVal_pad2 (by omega)]
    rw [hext, e1, e2, e3]

/-- C3 witness: the spec's own example, with a lowercase service id to
exercise the uppercasing. -/
theorem irn_roundtrip_witness :
    create_custom_irn (pystr "X") ⟨2024, 1, 1⟩ (pystr "INV-2024-001")
        (some (pystr "94nd90nr")) (some ⟨2024, 6, 11⟩) =
      .ok (pystr "INV-2024-001" ++ '-' ::
        (pyUpper (pystr "94nd90nr") ++ '-' :: dateStamp ⟨2024, 6, 11⟩))
    ∧ extract_components (pystr "INV-2024-001" ++ '-' ::
        (pyUpper (pystr "94nd90nr") ++ '-' :: dateStamp ⟨2024, 6, 11⟩)) =
      .ok { invoice_number := pystr "INV-2024-001"
          , service_id := pyUpper (pystr "94nd90nr")
          , date_stamp := dateStamp ⟨2024, 6, 11⟩
          , issue_date := ⟨2024, 6, 11⟩ } :=
  irn_roundtrip (pystr "INV-2024-001") (pystr "94nd90nr") ⟨2024, 6, 11⟩
    (pystr "X") ⟨2024, 1, 1⟩ (by decide) (by decide) (by decide) (by decide)
    (by decide) (by decide)

/-- C4 counterexample: a caller supplying the 3-character service id "ABC"
gets `ValueError("Generated IRN is invalid")` — no left-padding happens,
contradicting "never produces an invalid IRN or an error". -/
theorem irn_short_serviceid_error :
    create_custom_irn (pystr "X") ⟨2024, 1, 1⟩ (pystr "INV001")
        (some (pystr "ABC")) (some ⟨2024, 6, 11⟩) =
      .error "Generated IRN is invalid" :=
  create_custom_irn_short (by decide) (by decide) (by decide)

/-- C4 (amended): building an IRN truncates a service id of 8 or more
alphanumeric characters to exactly 8 and uppercases it, producing a valid
IRN; but a nonempty service id shorter than 8 characters is not left-padded
with zeros — `create_custom_irn` raises
`ValueError("Generated IRN is invalid")` for it. -/
theorem irn_serviceid_truncate_or_error :
    (∀ (genSid n s : PyStr) (nowDate pd : PyDate), n ≠ [] → 8 ≤ s.length →
      (∀ c ∈ s, isAsciiAlnum c = true) → 1000 ≤ pd.year → pd.year ≤ 9999 →
      validYMD pd.year pd.month pd.day = true →
      create_custom_irn genSid nowDate n (some s) (some pd) =
        .ok (n ++ '-' :: (pyUpper (s.take 8) ++ '-' :: dateStamp pd)))
    ∧ (∀ (genSid n s : PyStr) (nowDate pd : PyDate), s ≠ [] → s.length < 8 →
      (∀ c ∈ s, isAsciiAlnum c = true) →
      create_custom_irn genSid nowDate n (some s) (some pd) =
        .error "Generated IRN is invalid") := by
  constructor
  · intro genSid n s nowDate pd hn hs8 hsal hy1 hy2 hv
    exact create_custom_irn_ok hn hs8 hsal hy1 hy2 hv
  · intro genSid n s nowDate pd hs0 hs8 hsal
    exact create_custom_irn_short hs0 hs8 hsal

/-- C4 witness: a 9-character service id is truncated to 8 and uppercased,
and a 3-character one produces the error. -/
theorem irn_serviceid_truncate_or_error_witness :
    create_custom_irn (pystr "X") ⟨2024, 1, 1⟩ (pystr "INV001")
        (some (pystr "94nd90nrx")) (some ⟨2024, 6, 11⟩) =
      .ok (pystr "INV001" ++ '-' ::
        (pyUpper ((pystr "94nd90nrx").take 8) ++ '-' :: dateStamp ⟨2024, 6, 11⟩))
    ∧ create_custom_irn (pystr "X") ⟨2024, 1, 1⟩ (pystr "INV001")
        (some (pystr "AB")) (some ⟨2024, 6, 11⟩) =
      .error "Generated IRN is invalid" :=
  ⟨irn_serviceid_truncate_or_error.1 (pystr "X") (pystr "INV001")
      (pystr "94nd90nrx") ⟨2024, 1, 1⟩ ⟨2024, 6, 11⟩ (by decide) (by decide)
      (by decide) (by decide) (by decide) (by decide),
   irn_serviceid_truncate_or_error.2 (pystr "X") (pystr "INV001") (pystr "AB")
      ⟨2024, 1, 1⟩ ⟨2024, 6, 11⟩ (by decide) (by decide) (by decide)⟩

/-- C2 counterexample: supplying the explicit timestamp 0 does not give a
result with timestamp 0 — the truthiness default replaces it with the
clock seconds (12345 here), so the claim's "for every explicitly supplied
integer timestamp ts the result has timestamp ts" fails at ts = 0. -/
theorem sign_irn_zero_timestamp_not_respected :
    (sign_irn id 12345 999 ⟨some (pystr "K"), some (pystr "C")⟩ (pystr "IRN")
        (some 0)).map FIRSSigningResult.timestamp = .ok 12345
    ∧ (12345 : ℤ) ≠ 0 := by
  exact ⟨rfl, by decide⟩

/-- C2 (amended): for every nonzero explicitly supplied Unix-seconds
timestamp ts, `sign_irn` feeds the PKCS#1 v1.5 cipher exactly the UTF-8
JSON serialization of the object with keys in order `irn`, `certificate`,
the `irn` value being `irn + "." + ts` in integer seconds; the result
carries `timestamp = ts` and `irn_with_timestamp = irn + "." + ts`, the
base64-encoded ciphertext, and only the result-metadata encryption
timestamp is the milliseconds clock value. -/
theorem sign_irn_payload_contract :
    ∀ (pkcs1v15Encrypt : List ℕ → List ℕ) (nowSec nowMs : ℤ)
      (pem cert irn : PyStr) (ts : ℤ), pem ≠ [] → cert ≠ [] → ts ≠ 0 →
      sign_irn pkcs1v15Encrypt nowSec nowMs ⟨some pem, some cert⟩ irn (some ts) =
        .ok { encrypted_data :=
                pyB64Encode (pkcs1v15Encrypt (utf8Encode
                  (jsonDumpsIrnCert (irn ++ '.' :: intStr ts) cert)))
            , encryption_result :=
                { encrypted_base64 :=
                    pyB64Encode (pkcs1v15Encrypt (utf8Encode
                      (jsonDumpsIrnCert (irn ++ '.' :: intStr ts) cert)))
                , timestamp := nowMs }
            , timestamp := ts
            , irn_with_timestamp := irn ++ '.' :: intStr ts } := by
  intro enc nowSec nowMs pem cert irn ts hpem hcert hts
  have hpemne : pem.isEmpty = false := by
    cases pem
    · exact absurd rfl hpem
    · rfl
  have hcertne : cert.isEmpty = false := by
    cases cert
    · exact absurd rfl hcert
    · rfl
  unfold sign_irn encrypt_payload pyOrInt pyOrStr truthyStr
  simp [hpemne, hcertne, hts]

/-- C2 witness: the contract applied at a concrete configured signer and
the nonzero timestamp 1700000000. -/
theorem sign_irn_payload_contract_witness :
    sign_irn id 5 6 ⟨some (pystr "K"), some (pystr "C")⟩ (pystr "IRN")
        (some 1700000000) =
      .ok { encrypted_data :=
              pyB64Encode (id (utf8Encode
                (jsonDumpsIrnCert (pystr "IRN" ++ '.' :: intStr 1700000000)
                  (pystr "C"))))
          , encryption_result :=
              { encrypted_base64 :=
                  pyB64Encode (id (utf8Encode
                    (jsonDumpsIrnCert (pystr "IRN" ++ '.' :: intStr 1700000000)
                      (pystr "C"))))
              , timestamp := 6 }
          , timestamp := 1700000000
          , irn_with_timestamp := pystr "IRN" ++ '.' :: intStr 1700000000 } :=
  sign_irn_payload_contract id 5 6 (pystr "K") (pystr "C") (pystr "IRN")
    1700000000 (by decide) (by decide) (by decide)

/-- C10: an explicitly supplied timestamp 0 is indistinguishable from not
supplying one — `ts = timestamp or int(time.time())` treats 0 as falsy —
so the payload's `irn_with_timestamp` and the returned `timestamp` use the
clock seconds: requesting Unix timestamp 0 is impossible. -/
theorem sign_irn_zero_timestamp_uses_clock :
    ∀ (pkcs1v15Encrypt : List ℕ → List ℕ) (nowSec nowMs : ℤ)
      (st : FIRSSignerSt) (irn : PyStr),
      sign_irn pkcs1v15Encrypt nowSec nowMs st irn (some 0) =
        sign_irn pkcs1v15Encrypt nowSec nowMs st irn none
      ∧ (∀ pem cert : PyStr, pem ≠ [] → cert ≠ [] →
          st = ⟨some pem, some cert⟩ →
          sign_irn pkcs1v15Encrypt nowSec nowMs st irn (some 0) =
            .ok { encrypted_data :=
                    pyB64Encode (pkcs1v15Encrypt (utf8Encode
                      (jsonDumpsIrnCert (irn ++ '.' :: intStr nowSec) cert)))
                , encryption_result :=
                    { encrypted_base64 :=
                        pyB64Encode (pkcs1v15Encrypt (utf8Encode
                          (jsonDumpsIrnCert (irn ++ '.' :: intStr nowSec) cert)))
                    , timestamp := nowMs }
                , timestamp := nowSec
                , irn_with_timestamp := irn ++ '.' :: intStr nowSec }) := by
  intro enc nowSec nowMs st irn
  constructor
  · rfl
  · intro pem cert hpem hcert hst
    subst hst
    have hpemne : pem.isEmpty = false := by
      cases pem
      · exact absurd rfl hpem
      · rfl
    have hcertne : cert.isEmpty = false := by
      cases cert
      · exact absurd rfl hcert
      · rfl
    unfold sign_irn encrypt_payload pyOrInt pyOrStr truthyStr
    simp [hpemne, hcertne]

/-- C10 witness: the clock value 1700000000 is used when 0 is supplied to
a concrete configured signer. -/
theorem sign_irn_zero_timestamp_uses_clock_witness :
    sign_irn id 1700000000 9 ⟨some (pystr "K"), some (pystr "C")⟩ (pystr "IRN")
        (some 0) =
      .ok { encrypted_data :=
              pyB64Encode (id (utf8Encode
                (jsonDumpsIrnCert (pystr "IRN" ++ '.' :: intStr 1700000000)
                  (pystr "C"))))
          , encryption_result :=
              { encrypted_base64 :=
                  pyB64Encode (id (utf8Encode
                    (jsonDumpsIrnCert (pystr "IRN" ++ '.' :: intStr 1700000000)
                      (pystr "C"))))
              , timestamp := 9 }
          , timestamp := 1700000000
          , irn_with_timestamp := pystr "IRN" ++ '.' :: intStr 1700000000 } :=
  (sign_irn_zero_timestamp_uses_clock id 1700000000 9
      ⟨some (pystr "K"), some (pystr "C")⟩ (pystr "IRN")).2
    (pystr "K") (pystr "C") (by decide) (by decide) rfl

/-- C5: for amounts ≥ 0, `calculate_line_tax` short-circuits on a
registry-exempt HSN code to rate 0, tax 0 and the registry's exemption
reason even when a custom rate is supplied; otherwise it resolves the rate
as custom rate, else registry rate, else 7.5, and returns
`round_half_up(amount * rate / 100, 2)`; a code absent from the registry
yields the default rate 7.5 (and never an error — the function is total). -/
theorem calculate_line_tax_correct :
    (∀ (amount : ℚ) (code : PyStr) (cr : Option ℚ), 0 ≤ amount →
      is_exempt code = true →
      calculate_line_tax amount (some code) cr =
        { category := pystr "VAT", rate := 0, base_amount := amount,
          tax_amount := 0, exemption_reason := get_exemption_reason code })
    ∧ (∀ (amount : ℚ) (hsn_code : Option PyStr) (cr : Option ℚ), 0 ≤ amount →
      ¬(truthyStr hsn_code = true ∧ is_exempt (hsn_code.getD []) = true) →
      calculate_line_tax amount hsn_code cr =
        { category := pystr "VAT", rate := specResolvedRate hsn_code cr,
          base_amount := amount,
          tax_amount := roundHalfUp2 (amount * specResolvedRate hsn_code cr / 100),
          exemption_reason := none })
    ∧ (∀ code : PyStr, get_hsn_code code = none → get_tax_rate code = 75 / 10) := by
  refine ⟨?_, ?_, ?_⟩
  · intro amount code cr _ hex
    have hne : code ≠ [] := by
      intro hc; rw [hc, is_exempt_nil] at hex; cases hex
    have ht : truthyStr (some code) = true := by
      simp [truthyStr, List.isEmpty_iff, hne]
    unfold calculate_line_tax
    rw [Option.getD_some, ht, hex]
    simp [is_exempt_truthy_reason hex]
  · intro amount hsn_code cr _ hnex
    have hcond : (truthyStr hsn_code && is_exempt (hsn_code.getD [])) = false := by
      rcases h1 : truthyStr hsn_code with _ | _
      · simp
      · rcases h2 : is_exempt (hsn_code.getD []) with _ | _
        · simp
        · exact absurd ⟨h1, h2⟩ hnex
    unfold calculate_line_tax
    rw [hcond]
    rcases cr with _ | r <;> simp [specResolvedRate]
  · intro code hnone
    unfold get_tax_rate
    rw [hnone]

/-- C5 witness: concrete instances of both branches. -/
theorem calculate_line_tax_correct_witness :
    calculate_line_tax 100 (some (pystr "3004")) (some 5) =
      { category := pystr "VAT", rate := 0, base_amount := 100,
        tax_amount := 0, exemption_reason := get_exemption_reason (pystr "3004") }
    ∧ calculate_line_tax 100 (some (pystr "99999999")) none =
      { category := pystr "VAT", rate := specResolvedRate (some (pystr "99999999")) none,
        base_amount := 100,
        tax_amount := roundHalfUp2 (100 * specResolvedRate (some (pystr "99999999")) none / 100),
        exemption_reason := none } :=
  ⟨calculate_line_tax_correct.1 100 (pystr "3004") (some 5) (by norm_num) (by decide),
   calculate_line_tax_correct.2.1 100 (some (pystr "99999999")) none (by norm_num)
     (by decide)⟩

/-- C6: `calculate_multiple_taxes` computes every tax off the same original
base amount while `calculate_cascading_tax` computes the i-th tax off the
base plus all previously computed tax amounts; for base 1000 and two 10%
taxes the totals are 200 (additive) versus 210 (cascading); and both
functions bucket each tax amount into vat/excise/customs/other by its
category with the total equal to the sum of all tax amounts. -/
theorem additive_vs_cascading_tax :
    (∀ (a : ℚ) (ts : List TaxIn),
      (calculate_multiple_taxes a ts).details =
        ts.map (fun t =>
          { category := t.category, rate := t.rate, base_amount := a,
            tax_amount := roundHalfUp2 (a * t.rate / 100), exemption_reason := none }))
    ∧ (∀ (a : ℚ) (ts : List TaxIn) (i : ℕ),
        i < (calculate_cascading_tax a ts).details.length →
        ((calculate_cascading_tax a ts).details.getD i defaultDetail).base_amount =
          a + (((calculate_cascading_tax a ts).details.take i).map
            TaxCalculation.tax_amount).sum)
    ∧ (calculate_multiple_taxes 1000 [⟨pystr "VAT", 10⟩, ⟨pystr "VAT", 10⟩]).total = 200
    ∧ (calculate_cascading_tax 1000 [⟨pystr "VAT", 10⟩, ⟨pystr "VAT", 10⟩]).total = 210
    ∧ (∀ (a : ℚ) (ts : List TaxIn), bucketsConsistent (calculate_multiple_taxes a ts))
    ∧ (∀ (a : ℚ) (ts : List TaxIn), bucketsConsistent (calculate_cascading_tax a ts)) := by
  refine ⟨?_, ?_, ?_, ?_, ?_, ?_⟩
  · intro a ts
    rw [calculate_multiple_taxes, foldl_stepMultiple_details]
    simp [emptyBreakdown]
  · intro a ts i h
    rw [calculate_cascading_tax, foldl_stepCascade_details] at h ⊢
    simp only [emptyBreakdown, List.nil_append] at h ⊢
    exact cascadeDetailsSpec_base ts a i h
  · simp [calculate_multiple_taxes, stepMultiple, addToBuckets, emptyBreakdown]
    norm_num [roundHalfUp2]
  · simp [calculate_cascading_tax, stepCascade, addToBuckets, emptyBreakdown]
    norm_num [roundHalfUp2]
  · intro a ts
    exact foldl_stepMultiple_consistent a ts _ emptyBreakdown_consistent
  · intro a ts
    exact foldl_stepCascade_consistent ts (a, emptyBreakdown) emptyBreakdown_consistent

/-- C6 witness: in the cascading breakdown of base 1000 with two 10%
taxes, the second detail's base is 1000 plus the first tax amount. -/
theorem additive_vs_cascading_tax_witness :
    ((calculate_cascading_tax 1000 [⟨pystr "VAT", 10⟩, ⟨pystr "VAT", 10⟩]).details.getD 1
        defaultDetail).base_amount =
      1000 + (((calculate_cascading_tax 1000
          [⟨pystr "VAT", 10⟩, ⟨pystr "VAT", 10⟩]).details.take 1).map
        TaxCalculation.tax_amount).sum :=
  additive_vs_cascading_tax.2.1 1000 [⟨pystr "VAT", 10⟩, ⟨pystr "VAT", 10⟩] 1
    (by rw [calculate_cascading_tax, foldl_stepCascade_details]
        simp [cascadeDetailsSpec, emptyBreakdown])

/-- C7 (code bug): constructing a `Discount` with both `amount` and
`percent` set to positive values succeeds — the `validate_discount`
field validator looks the field currently being validated up in
`info.data`, where it is never present, so its both-set check never
fires and no `ValidationError` is raised. -/
theorem discount_both_set_accepted :
    mkDiscount (some 10) (some 5) =
      .ok { amount := some 10, percent := some 5, description := none } := by
  norm_num [mkDiscount, validate_discount, dpOk2, truthyQ]

/-- C8: `calculate_reverse_tax` decomposes a tax-inclusive total into
`base = round_half_up(total / (1 + rate/100), 2)` and `tax = total - base`;
at `(107.50, 7.5)` this gives `(100.00, 7.50)`, which
`validate_tax_calculation` accepts within its 0.01 tolerance. -/
theorem calculate_reverse_tax_correct :
    (∀ total rate : ℚ, 0 ≤ total → 0 ≤ rate → rate ≤ 100 →
      calculate_reverse_tax total rate =
        (roundHalfUp2 (total / (1 + rate / 100)),
         total - roundHalfUp2 (total / (1 + rate / 100))))
    ∧ calculate_reverse_tax (107.50 : ℚ) (7.5 : ℚ) = ((100 : ℚ), (7.50 : ℚ))
    ∧ validate_tax_calculation 100 (7.50 : ℚ) (7.5 : ℚ) = true := by
  refine ⟨?_, by norm_num [calculate_reverse_tax, roundHalfUp2],
    by norm_num [validate_tax_calculation, roundHalfUp2]⟩
  intro total rate _ _ _
  have h : (100 + rate) / 100 = 1 + rate / 100 := by ring
  simp only [calculate_reverse_tax, h]

/-- C8 witness: the general decomposition law applied at `(230, 15)`. -/
theorem calculate_reverse_tax_correct_witness :
    calculate_reverse_tax 230 15 =
      (roundHalfUp2 (230 / (1 + 15 / 100)), 230 - roundHalfUp2 (230 / (1 + 15 / 100))) :=
  calculate_reverse_tax_correct.1 230 15 (by norm_num) (by norm_num) (by norm_num)

/-- C9 counterexample: the registry's `HSNManager.validate_hsn_code`
accepts the odd-length code "12345", which the claim says is rejected. -/
theorem hsn_manager_accepts_odd_length :
    hsnManagerValidateCode (pystr "12345") = true
    ∧ (pystr "12345").length % 2 = 1 := by
  decide

/-- C9 (amended): `HSNManager.validate_hsn_code` accepts exactly the
4-to-8-digit codes with no parity requirement; the even-length rule
(4, 6 or 8 digits, odd lengths such as 5 rejected) is enforced by the
schema-level `validate_hsn_code` of `validators_impl`, which accepts
exactly the even-length 4-to-8-digit codes. -/
theorem hsn_format_validation_characterization :
    (∀ code : PyStr, hsnManagerValidateCode code = true ↔
      (4 ≤ code.length ∧ code.length ≤ 8 ∧ ∀ c ∈ code, c.isDigit))
    ∧ (∀ code : PyStr, (schemaValidateHsnCode code).1 = true ↔
      (4 ≤ code.length ∧ code.length ≤ 8 ∧ code.length % 2 = 0 ∧
        ∀ c ∈ code, c.isDigit)) := by
  constructor
  · intro code
    simp [hsnManagerValidateCode, List.all_eq_true, and_assoc]
  · intro code
    unfold schemaValidateHsnCode
    split_ifs with h1 h2 h3 h4 h5
    · simp only [false_iff]
      intro ⟨h4, _, _⟩
      rw [List.isEmpty_iff] at h1
      rw [h1] at h4
      simp at h4
    · simp only [false_iff]
      intro ⟨_, _, _, hd⟩
      have hall : code.all Char.isDigit = true :=
        List.all_eq_true.mpr (fun c hc => hd c hc)
      rw [hall] at h2
      simp at h2
    · simp only [false_iff]; omega
    · simp only [false_iff]; omega
    · simp only [false_iff]; omega
    · simp only [true_iff]
      have h2t : code.all Char.isDigit = true := by simpa using h2
      refine ⟨by omega, by omega, by omega, ?_⟩
      intro c hc
      exact List.all_eq_true.mp h2t c hc

end Zutax
